import Mathlib

/-
  Verification development for the OneView-to-PagerDuty bridge
  (src/src/app.py). The Python source is shallowly embedded: dict-shaped
  alert payloads become association lists, the network becomes explicit
  response parameters, datetime instants become integers counting minutes,
  and each statement of the relevant functions is translated directly.
-/

namespace OVBridge

/-- Value of a field one level inside a nested payload object.  The source
reads only string-valued fields inside the nested associatedResource dict
(resourceName, resourceCategory), so nested objects carry flat values. -/
inductive NVal where
  | str : String → NVal
  | null : NVal
  deriving DecidableEq, Repr

/-- Value of a top-level field of a raw alert payload. -/
inductive JVal where
  | str : String → JVal
  | null : JVal
  | obj : List (String × NVal) → JVal
  deriving DecidableEq, Repr

/-- Injection of nested values into top-level values, used when the source
copies a value read from associatedResource into a local variable. -/
def NVal.toJVal : NVal → JVal
  | .str s => .str s
  | .null => .null

/-- A raw or processed alert payload: a Python dict with string keys. -/
abbrev JObj := List (String × JVal)

/-- Association-list lookup with decidable key equality; models Python
dict indexing (first binding wins; real dicts have unique keys). -/
def alookup {κ β : Type} [DecidableEq κ] : List (κ × β) → κ → Option β
  | [], _ => none
  | (k₁, v) :: t, k => if k = k₁ then some v else alookup t k

/-- Python dict.get(k, d). -/
def agetD {κ β : Type} [DecidableEq κ] (o : List (κ × β)) (k : κ) (d : β) : β :=
  match alookup o k with
  | some v => v
  | none => d

/-- Python dict key assignment d[k] = v: overwrite in place when the key
is present (first binding, unique in a real dict), append otherwise. -/
def aset {κ β : Type} [DecidableEq κ] : List (κ × β) → κ → β → List (κ × β)
  | [], k, v => [(k, v)]
  | (k₁, v₁) :: t, k, v => if k₁ = k then (k, v) :: t else (k₁, v₁) :: aset t k v

/-- Python str.lower() on the ASCII alert-state strings the source
compares against (Char.toLower lowers exactly the ASCII uppercase
range). -/
def pyLower (s : String) : String := String.mk (s.data.map Char.toLower)

/-- Resource name and category extraction, app.py lines 182-198.  Starts
from the sentinels, reads associatedResource when it is a truthy dict
(nonempty object), then falls back to the flat resourceName field and to
physicalResourceType whenever the name still equals the sentinel. -/
def resolveNameCat (alert : JObj) : JVal × JVal :=
  let ar := agetD alert "associatedResource" (.obj [])
  let nc : JVal × JVal :=
    match ar with
    | .obj (f :: fs) =>
        (match alookup (f :: fs) "resourceName" with
         | some v => v.toJVal
         | none => .str "Unknown Resource",
         match alookup (f :: fs) "resourceCategory" with
         | some v => v.toJVal
         | none => .str "OneView")
    | _ => (.str "Unknown Resource", .str "OneView")
  let n1 := if nc.1 = JVal.str "Unknown Resource"
            then agetD alert "resourceName" (.str "Unknown Resource") else nc.1
  let n2 := if n1 = JVal.str "Unknown Resource"
            then agetD alert "physicalResourceType" (.str "Unknown Resource") else n1
  (n2, nc.2)

/-- Alert normalization, app.py lines 200-203: copy the raw payload, then
assign the resolved name to key "resource" and the resolved category to
key "resourceCategory" (overwriting raw values under those keys). -/
def processAlert (alert : JObj) : JObj :=
  let nc := resolveNameCat alert
  aset (aset alert "resource" nc.1) "resourceCategory" nc.2

/-- The two PagerDuty event actions. -/
inductive EventAction where
  | trigger
  | resolve
  deriving DecidableEq, Repr

/-- Observable outcome of one send_to_pagerduty call.  attempted carries
the event action of the outbound POST and its result (some status code,
or none for a transport exception); skipped and noRoutingKey mean no
outbound call was made; stateExn is the exception raised by .lower() on a
non-string alertState, caught by the surrounding try. -/
inductive PdOutcome where
  | noRoutingKey
  | skipped
  | attempted (action : EventAction) (result : Option Nat)
  | stateExn
  deriving DecidableEq, Repr

/-- Return value of send_to_pagerduty for each outcome: true only for a
202-accepted POST or for the skip path (app.py lines 236-237, 279-291). -/
def pdReturns : PdOutcome → Bool
  | .noRoutingKey => false
  | .skipped => true
  | .attempted _ (some code) => code == 202
  | .attempted _ none => false
  | .stateExn => false

/-- Event action of the outbound call, when one was made. -/
def pdCall : PdOutcome → Option EventAction
  | .attempted a _ => some a
  | _ => none

/-- send_to_pagerduty, app.py lines 218-291.  The routing key is falsy
when absent or empty (line 220).  alertState defaults to "Active" (line
232); a non-active state returns True before any call (lines 236-237);
the event-action computation for cleared and acknowledged states (lines
239-241) sits below that early return.  net is the result of the POST to
the PagerDuty enqueue endpoint. -/
def send_to_pagerduty (net : Option Nat) (alert_data : JObj) (rk : Option String) : PdOutcome :=
  if rk = none ∨ rk = some "" then .noRoutingKey
  else
    match agetD alert_data "alertState" (.str "Active") with
    | .str s =>
        if pyLower s ≠ "active" then .skipped
        else
          let ea := if pyLower s = "cleared" ∨ pyLower s = "acknowledged"
                    then EventAction.resolve else EventAction.trigger
          .attempted ea net
    | _ => .stateExn

/-- OneViewClient session fields: session_id and session_expires (app.py
lines 67-68).  Instants are integer minutes. -/
structure OVState where
  session_id : Option String
  session_expires : Option Int
  deriving DecidableEq, Repr

/-- Result of the login POST: 200 with an optional sessionID in the body,
a non-200 status, or a transport exception. -/
inductive AuthResp where
  | ok (sessionID : Option String)
  | httpError
  | exn
  deriving DecidableEq, Repr

/-- Result of one authenticate call: the client state afterwards, the
returned boolean, and the value written to the session gauge metric
(none when the call returned on the missing-credentials path, which does
not touch the gauge). -/
structure AuthResult where
  state : OVState
  returned : Bool
  gauge : Option Nat
  deriving DecidableEq, Repr

/-- OneViewClient.authenticate, app.py lines 88-132.  On 200 it stores
the sessionID from the body and sets expiry to now plus 22 hours (lines
117-123); on a non-200 status or an exception it sets the gauge to 0 and
returns False, leaving session_id and session_expires untouched (lines
124-132). -/
def authenticate (credsOk : Bool) (resp : AuthResp) (now : Int) (s : OVState) : AuthResult :=
  if credsOk then
    match resp with
    | .ok sid => ⟨⟨sid, some (now + 22 * 60)⟩, true, some 1⟩
    | .httpError => ⟨s, false, some 0⟩
    | .exn => ⟨s, false, some 0⟩
  else ⟨s, false, none⟩

/-- OneViewClient.is_session_valid, app.py lines 134-138. -/
def is_session_valid (now : Int) (s : OVState) : Bool :=
  match s.session_id, s.session_expires with
  | some _, some e => decide (now < e)
  | _, _ => false

/-- Result of the alert-listing GET: 200 with the members list, a non-200
status, or a transport exception. -/
inductive FetchResp where
  | ok (members : List JObj)
  | httpError
  | exn
  deriving DecidableEq, Repr

/-- Normalization of the members list on a 200 response; empty list on a
non-200 status or a transport exception (app.py lines 175-215, all under
the try whose handler returns the empty list). -/
def fetchMembers : FetchResp → List JObj
  | .ok members => members.map processAlert
  | .httpError => []
  | .exn => []

/-- OneViewClient.get_critical_alerts, app.py lines 140-215: when the
session is invalid, authenticate first and return the empty list if that
fails; then issue the listing call and normalize. -/
def get_critical_alerts (credsOk : Bool) (authResp : AuthResp) (fetchResp : FetchResp)
    (now : Int) (s : OVState) : OVState × List JObj :=
  if is_session_valid now s then (s, fetchMembers fetchResp)
  else
    let r := authenticate credsOk authResp now s
    if r.returned then (r.state, fetchMembers fetchResp)
    else (r.state, [])

/-- The processed_alerts dedup map: alert identity to first-seen instant
(app.py line 43). -/
abbrev Cache := List (JVal × Int)

/-- Membership test alert_id in processed_alerts. -/
def cacheHas (c : Cache) (k : JVal) : Bool := (alookup c k).isSome

/-- Assignment processed_alerts[alert_id] = t. -/
def cacheInsert (c : Cache) (k : JVal) (t : Int) : Cache := aset c k t

/-- Alert identity, the expression alert.get(uri, alert.get(resourceId,
"Unknown")) used verbatim at app.py lines 231, 312, 500 and 552. -/
def alertId (a : JObj) : JVal :=
  match alookup a "uri" with
  | some v => v
  | none =>
      match alookup a "resourceId" with
      | some v => v
      | none => .str "Unknown"

/-- The lock-protected critical section of the poll loop, app.py lines
316-319: check presence and, when absent, insert with the current time,
all under one acquisition of processed_alerts_lock.  Returns the new map
and whether the claim was won. -/
def tryClaim (now : Int) (id : JVal) (c : Cache) : Cache × Bool :=
  if cacheHas c id then (c, false) else (cacheInsert c id now, true)

/-- One poll-loop iteration for a single alert, app.py lines 312-323:
claim first, then call send_to_pagerduty only when the claim was won.
Returns the new map, whether a delivery was attempted, and the delivery
result (sendOk abstracts the boolean send_to_pagerduty returns). -/
def pollStep (sendOk : Bool) (now : Int) (c : Cache) (alert : JObj) : Cache × Bool × Bool :=
  let r := tryClaim now (alertId alert) c
  if r.2 then (r.1, true, sendOk) else (r.1, false, false)

/-- Outcome reported by the webhook handler for one alert. -/
inductive WebhookResult where
  | alreadyProcessed
  | success
  | failed
  deriving DecidableEq, Repr

/-- The webhook handler body for one payload, app.py lines 499-515: check
presence under the lock; when absent, call send_to_pagerduty, and only on
success take the lock again and insert. -/
def webhookStep (sendOk : Bool) (now : Int) (c : Cache) (data : JObj) : Cache × WebhookResult :=
  let id := alertId data
  if cacheHas c id then (c, .alreadyProcessed)
  else if sendOk then (cacheInsert c id now, .success)
  else (c, .failed)

/-- One force-poll iteration for a single alert, app.py lines 551-562:
check presence under the lock; when absent, call send_to_pagerduty, and
only on success take the lock again, insert, and count it processed. -/
def forcePollStep (sendOk : Bool) (now : Int) (c : Cache) (alert : JObj) : Cache × Bool :=
  let id := alertId alert
  if cacheHas c id then (c, false)
  else if sendOk then (cacheInsert c id now, true)
  else (c, false)

/-- The TTL cleanup block of the poll loop, app.py lines 329-338: delete
every entry whose stored instant is strictly below now minus 24 hours. -/
def sweepExpired (now : Int) (c : Cache) : Cache :=
  c.filter (fun kv => !decide (kv.2 < now - 24 * 60))

/-- Per-request control state of one webhook handler execution, used to
study interleavings of the handler body (app.py lines 499-515).  The
handler is three atomic regions: pc 0 is the lock-protected presence
check (lines 502-505), pc 1 is the unlocked send_to_pagerduty call (line
507), pc 2 is the lock-protected insert on success (lines 509-511); pc 3
is finished. -/
structure WThread where
  pc : Nat
  sendAttempted : Bool
  sendOk : Bool
  result : Option WebhookResult
  deriving DecidableEq, Repr

/-- A handler execution that has not started yet. -/
def wthreadInit : WThread := ⟨0, false, false, none⟩

/-- One atomic region of the webhook handler executed by one request
thread against the shared processed_alerts map. -/
def wthreadStep (sendOk : Bool) (now : Int) (id : JVal) (c : Cache) (t : WThread) :
    Cache × WThread :=
  match t.pc with
  | 0 => if cacheHas c id then (c, { t with pc := 3, result := some .alreadyProcessed })
         else (c, { t with pc := 1 })
  | 1 => (c, { t with pc := 2, sendAttempted := true, sendOk := sendOk })
  | 2 => if t.sendOk then (cacheInsert c id now, { t with pc := 3, result := some .success })
         else (c, { t with pc := 3, result := some .failed })
  | _ => (c, t)

/-- Two concurrent webhook handler executions sharing processed_alerts. -/
structure WSys where
  cache : Cache
  t1 : WThread
  t2 : WThread
  deriving DecidableEq, Repr

/-- Scheduler step: true runs one atomic region of the first request
thread, false one of the second. -/
def wsysStep (sendOk1 sendOk2 : Bool) (now1 now2 : Int) (id : JVal) (s : WSys)
    (which : Bool) : WSys :=
  if which then
    let r := wthreadStep sendOk1 now1 id s.cache s.t1
    ⟨r.1, r.2, s.t2⟩
  else
    let r := wthreadStep sendOk2 now2 id s.cache s.t2
    ⟨r.1, s.t1, r.2⟩

/-- Run a schedule of interleaved atomic regions of the two handler
executions. -/
def wsysRun (sendOk1 sendOk2 : Bool) (now1 now2 : Int) (id : JVal) (sched : List Bool)
    (s : WSys) : WSys :=
  sched.foldl (wsysStep sendOk1 sendOk2 now1 now2 id) s

/-- Candidate values for the resource name in spec order, written from
the words of the spec (section 3 and section 8): the nested
associated-resource resource name when present, then the flat
resource-name field, then the physical-resource-type field. -/
def specNameCandidates (a : JObj) : List JVal :=
  (match agetD a "associatedResource" (.obj []) with
   | .obj (f :: fs) =>
       match alookup (f :: fs) "resourceName" with
       | some v => [v.toJVal]
       | none => []
   | _ => []) ++
  (match alookup a "resourceName" with
   | some v => [v]
   | none => []) ++
  (match alookup a "physicalResourceType" with
   | some v => [v]
   | none => [])

/-- Resource name the spec words describe, adjusted only as the code
forces: the first candidate, in spec order, that differs from the
literal Unknown Resource, defaulting to that literal. -/
def specResolvedName (a : JObj) : JVal :=
  ((specNameCandidates a).filter
    (fun v => !decide (v = JVal.str "Unknown Resource"))).headD (JVal.str "Unknown Resource")

theorem alookup_aset_self {κ β : Type} [DecidableEq κ] (o : List (κ × β)) (k : κ) (v : β) :
    alookup (aset o k v) k = some v := by
  induction o with
  | nil => simp [aset, alookup]
  | cons p t ih =>
      obtain ⟨k₁, v₁⟩ := p
      by_cases hk : k₁ = k
      · simp [aset, hk, alookup]
      · simp [aset, hk, alookup, Ne.symm hk, ih]

theorem alookup_aset_ne {κ β : Type} [DecidableEq κ] (o : List (κ × β)) (k k₂ : κ) (v : β)
    (h : k₂ ≠ k) : alookup (aset o k v) k₂ = alookup o k₂ := by
  induction o with
  | nil => simp [aset, alookup, h]
  | cons p t ih =>
      obtain ⟨k₁, v₁⟩ := p
      by_cases hk : k₁ = k
      · subst hk
        simp [aset, alookup, h, ih]
      · by_cases hk₂ : k₂ = k₁ <;> simp [aset, alookup, hk, hk₂, ih]

theorem cacheHas_insert (c : Cache) (k : JVal) (t : Int) :
    cacheHas (cacheInsert c k t) k = true := by
  simp [cacheHas, cacheInsert, alookup_aset_self]

theorem processAlert_resource (a : JObj) :
    alookup (processAlert a) "resource" = some (resolveNameCat a).1 := by
  unfold processAlert
  rw [alookup_aset_ne _ _ _ _ (by decide), alookup_aset_self]

theorem processAlert_resourceCategory (a : JObj) :
    alookup (processAlert a) "resourceCategory" = some (resolveNameCat a).2 := by
  unfold processAlert
  rw [alookup_aset_self]

theorem processAlert_preserves (a : JObj) (k : String)
    (h1 : k ≠ "resource") (h2 : k ≠ "resourceCategory") :
    alookup (processAlert a) k = alookup a k := by
  unfold processAlert
  rw [alookup_aset_ne _ _ _ _ h2, alookup_aset_ne _ _ _ _ h1]

theorem flat_phys_chain (a : JObj) :
    (if agetD a "resourceName" (JVal.str "Unknown Resource") = JVal.str "Unknown Resource"
     then agetD a "physicalResourceType" (JVal.str "Unknown Resource")
     else agetD a "resourceName" (JVal.str "Unknown Resource"))
    = (((match alookup a "resourceName" with
         | some v => [v]
         | none => ([] : List JVal)) ++
        (match alookup a "physicalResourceType" with
         | some v => [v]
         | none => ([] : List JVal))).filter
        (fun v => !decide (v = JVal.str "Unknown Resource"))).headD
        (JVal.str "Unknown Resource") := by
  rcases h1 : alookup a "resourceName" with _ | v1
  · rcases h2 : alookup a "physicalResourceType" with _ | v2
    · simp [agetD, h1, h2]
    · by_cases hv : v2 = JVal.str "Unknown Resource" <;> simp [agetD, h1, h2, hv]
  · by_cases hv1 : v1 = JVal.str "Unknown Resource"
    · subst hv1
      rcases h2 : alookup a "physicalResourceType" with _ | v2
      · simp [agetD, h1, h2]
      · by_cases hv : v2 = JVal.str "Unknown Resource" <;> simp [agetD, h1, h2, hv]
    · simp [agetD, h1, hv1]

theorem resolve_name_spec (a : JObj) : (resolveNameCat a).1 = specResolvedName a := by
  unfold resolveNameCat specResolvedName specNameCandidates
  cases har : agetD a "associatedResource" (JVal.obj []) with
  | str s => simpa using flat_phys_chain a
  | null => simpa using flat_phys_chain a
  | obj fields =>
      cases fields with
      | nil => simpa using flat_phys_chain a
      | cons f fs =>
          rcases hn : alookup (f :: fs) "resourceName" with _ | v
          · simpa [hn] using flat_phys_chain a
          · by_cases hv : v.toJVal = JVal.str "Unknown Resource"
            · simpa [hn, hv] using flat_phys_chain a
            · simp [hn, hv]

/-- C1: evaluation of send_to_pagerduty at the failing inputs.  With a
configured routing key, an alert in state Cleared or Acknowledged yields
the skip outcome: the function returns true and makes no outbound call,
while the claim requires an outbound call with event action resolve.
The early return at app.py lines 236-237 fires for every non-active
state, so the resolve mapping at lines 239-241 is unreachable.  The
Active state does produce a trigger call, as the claim states. -/
theorem c1_cleared_acknowledged_no_call :
    send_to_pagerduty (some 202) [("alertState", JVal.str "Cleared")] (some "rk")
      = PdOutcome.skipped
    ∧ send_to_pagerduty (some 202) [("alertState", JVal.str "Acknowledged")] (some "rk")
      = PdOutcome.skipped
    ∧ send_to_pagerduty (some 202) [("alertState", JVal.str "Active")] (some "rk")
      = PdOutcome.attempted EventAction.trigger (some 202)
    ∧ pdReturns PdOutcome.skipped = true
    ∧ pdCall PdOutcome.skipped = none := by decide

/-- C2 counterexample: in the webhook path, a newly seen alert whose
delivery fails is NOT present in the dedup cache afterwards, contrary to
the claim that every entry path inserts the identity before the delivery
attempt. -/
theorem c2_webhook_failure_not_cached :
    (webhookStep false 0 [] [("uri", JVal.str "a1")]).2 = WebhookResult.failed
    ∧ cacheHas (webhookStep false 0 [] [("uri", JVal.str "a1")]).1
        (alertId [("uri", JVal.str "a1")]) = false := by decide

/-- C2 amended: only the poll loop inserts the identity before the
delivery attempt, so there a failed delivery of a newly seen alert
leaves the identity cached and the alert is never retried; the webhook
and manual-trigger paths insert only after a successful delivery, so a
failed delivery there leaves the cache unchanged and the alert can be
retried. -/
theorem c2_claim_ordering_amended (sendOk : Bool) (now : Int) (c : Cache) (a : JObj)
    (h : cacheHas c (alertId a) = false) :
    cacheHas (pollStep sendOk now c a).1 (alertId a) = true
    ∧ (pollStep sendOk now c a).2.1 = true
    ∧ webhookStep false now c a = (c, WebhookResult.failed)
    ∧ forcePollStep false now c a = (c, false) := by
  refine ⟨?_, ?_, ?_, ?_⟩ <;>
    simp [pollStep, webhookStep, forcePollStep, tryClaim, h, cacheHas_insert]

/-- C2 amended claim applied at a concrete newly seen alert whose
delivery fails. -/
theorem c2_claim_ordering_amended_witness :
    cacheHas (pollStep false 0 [] [("uri", JVal.str "w1")]).1
        (alertId [("uri", JVal.str "w1")]) = true
    ∧ webhookStep false 0 [] [("uri", JVal.str "w1")] = ([], WebhookResult.failed) := by
  have h := c2_claim_ordering_amended false 0 [] [("uri", JVal.str "w1")] (by decide)
  exact ⟨h.1, h.2.2.1⟩

/-- C3 counterexample: a concrete interleaving of two concurrent webhook
handler executions for the same identity, in which both pass the
presence check, both make a delivery attempt and both report success,
contrary to the claim that exactly one caller wins and proceeds to
deliver.  The check and insert of the webhook path are separate lock
acquisitions with the unlocked delivery call between them. -/
theorem c3_concurrent_webhooks_both_deliver :
    wsysRun true true 0 0 (JVal.str "a1") [true, false, true, true, false, false]
      ⟨[], wthreadInit, wthreadInit⟩
    = ⟨[(JVal.str "a1", 0)], ⟨3, true, true, some WebhookResult.success⟩,
        ⟨3, true, true, some WebhookResult.success⟩⟩ := by decide

/-- C3 amended: in the poll loop the presence check and the insert run
under one lock acquisition, so the claim operation is atomic there: the
first claim of an absent identity wins and inserts, and any later claim
of that identity loses and leaves the cache unchanged.  In the webhook
and manual-trigger paths the check and the insert are separate lock
acquisitions, so two concurrent callers can both deliver. -/
theorem c3_poll_claim_atomic_amended (c : Cache) (id : JVal) (t1 t2 : Int)
    (h : cacheHas c id = false) :
    tryClaim t1 id c = (cacheInsert c id t1, true)
    ∧ tryClaim t2 id (tryClaim t1 id c).1 = ((tryClaim t1 id c).1, false) := by
  constructor
  · simp [tryClaim, h]
  · simp [tryClaim, h, cacheHas_insert]

/-- C3 amended claim applied at a concrete identity and empty cache. -/
theorem c3_poll_claim_atomic_amended_witness :
    tryClaim 1 (JVal.str "p1") [] = (cacheInsert [] (JVal.str "p1") 1, true)
    ∧ tryClaim 2 (JVal.str "p1") (tryClaim 1 (JVal.str "p1") []).1
        = ((tryClaim 1 (JVal.str "p1") []).1, false) :=
  c3_poll_claim_atomic_amended [] (JVal.str "p1") 1 2 (by decide)

/-- C4: the TTL sweep removes a cache entry iff its stored instant is
strictly older than now minus 24 hours, and an entry exactly at the
boundary is retained. -/
theorem c4_sweep_boundary (now : Int) (c : Cache) (e : JVal × Int) (he : e ∈ c) :
    (e ∈ sweepExpired now c ↔ ¬ (e.2 < now - 24 * 60))
    ∧ (e.2 = now - 24 * 60 → e ∈ sweepExpired now c) := by
  constructor
  · simp [sweepExpired, List.mem_filter, he]
  · intro hb
    simp [sweepExpired, List.mem_filter, he, hb]

/-- C4 applied to a concrete entry sitting exactly at the 24 hour
boundary, which the sweep retains. -/
theorem c4_sweep_boundary_witness :
    (JVal.str "k", (-1440 : Int)) ∈ sweepExpired 0 [(JVal.str "k", (-1440 : Int))] := by
  have h := c4_sweep_boundary 0 [(JVal.str "k", (-1440 : Int))]
    (JVal.str "k", (-1440 : Int)) (by simp)
  exact h.2 (by norm_num)

/-- C5: a successful authenticate stores the returned token and sets the
expiry to now plus 22 hours; validity holds right after it and fails 22
hours and one minute later with no further call; and is_session_valid is
true exactly when a token is stored, an expiry is stored, and the
current time is strictly before the expiry. -/
theorem c5_session_validity (now : Int) (s : OVState) (sid : String) :
    (authenticate true (AuthResp.ok (some sid)) now s).returned = true
    ∧ (authenticate true (AuthResp.ok (some sid)) now s).state
        = ⟨some sid, some (now + 22 * 60)⟩
    ∧ is_session_valid now (authenticate true (AuthResp.ok (some sid)) now s).state = true
    ∧ is_session_valid (now + 22 * 60 + 1)
        (authenticate true (AuthResp.ok (some sid)) now s).state = false
    ∧ (∀ (t : Int) (s2 : OVState),
        is_session_valid t s2 = true
          ↔ s2.session_id.isSome = true ∧ ∃ e, s2.session_expires = some e ∧ t < e) := by
  refine ⟨rfl, rfl, ?_, ?_, ?_⟩
  · simp [authenticate, is_session_valid]
  · simp [authenticate, is_session_valid]
  · intro t s2
    cases s2 with
    | mk sid2 exp2 => cases sid2 <;> cases exp2 <;> simp [is_session_valid]

/-- C6 counterexample: a client holding a valid unexpired session runs
authenticate, the login returns a non-success status, authenticate
returns false, and is_session_valid is still true afterwards, contrary
to the claim that a failed authenticate clears session validity. -/
theorem c6_failed_auth_keeps_valid_session :
    (authenticate true AuthResp.httpError 50 ⟨some "tok", some 100⟩).returned = false
    ∧ is_session_valid 50
        (authenticate true AuthResp.httpError 50 ⟨some "tok", some 100⟩).state = true := by
  decide

/-- C6 amended: on a non-success response or a transport exception,
authenticate returns false without raising and writes 0 to the session
gauge metric, but leaves the stored token and expiry untouched, so
is_session_valid afterwards is exactly what it was before the call: a
previously valid unexpired session remains valid. -/
theorem c6_failed_auth_amended (now : Int) (s : OVState) :
    authenticate true AuthResp.httpError now s = ⟨s, false, some 0⟩
    ∧ authenticate true AuthResp.exn now s = ⟨s, false, some 0⟩
    ∧ is_session_valid now (authenticate true AuthResp.httpError now s).state
        = is_session_valid now s
    ∧ is_session_valid now (authenticate true AuthResp.exn now s).state
        = is_session_valid now s :=
  ⟨rfl, rfl, rfl, rfl⟩

/-- C7: get_critical_alerts returns the empty sequence whenever token
acquisition fails (invalid session and failed authenticate), the listing
call returns a non-success status, or a transport failure occurs; the
embedding is a total function, reflecting that every such failure is
caught rather than raised to the caller. -/
theorem c7_fetch_failures_empty (credsOk : Bool) (authResp : AuthResp)
    (fetchResp : FetchResp) (now : Int) (s : OVState) :
    (is_session_valid now s = false →
        (authenticate credsOk authResp now s).returned = false →
        (get_critical_alerts credsOk authResp fetchResp now s).2 = [])
    ∧ (fetchResp = FetchResp.httpError →
        (get_critical_alerts credsOk authResp fetchResp now s).2 = [])
    ∧ (fetchResp = FetchResp.exn →
        (get_critical_alerts credsOk authResp fetchResp now s).2 = []) := by
  refine ⟨?_, ?_, ?_⟩
  · intro h1 h2
    simp [get_critical_alerts, h1, h2]
  · intro hf
    subst hf
    by_cases hv : is_session_valid now s
    · simp [get_critical_alerts, hv, fetchMembers]
    · cases hr : (authenticate credsOk authResp now s).returned <;>
        simp [get_critical_alerts, hv, hr, fetchMembers]
  · intro hf
    subst hf
    by_cases hv : is_session_valid now s
    · simp [get_critical_alerts, hv, fetchMembers]
    · cases hr : (authenticate credsOk authResp now s).returned <;>
        simp [get_critical_alerts, hv, hr, fetchMembers]

/-- C7 applied at a concrete run with no session and failed login. -/
theorem c7_fetch_failures_empty_witness :
    (get_critical_alerts false AuthResp.httpError (FetchResp.ok []) 0 ⟨none, none⟩).2 = [] :=
  (c7_fetch_failures_empty false AuthResp.httpError (FetchResp.ok []) 0 ⟨none, none⟩).1
    (by decide) (by decide)

/-- C8 counterexample: a raw alert carrying a flat resourceCategory
field loses that value during normalization, because the processed
record overwrites the resourceCategory key with the derived category, so
the canonical record is not a superset of the raw payload. -/
theorem c8_resourceCategory_overwritten :
    alookup (processAlert [("resourceCategory", JVal.str "RawCat")]) "resourceCategory"
      = some (JVal.str "OneView")
    ∧ alookup [("resourceCategory", JVal.str "RawCat")] "resourceCategory"
      = some (JVal.str "RawCat") := by decide

/-- C8 amended: the canonical resource name is the first candidate, in
the order nested associated-resource resource name, flat resource-name
field, physical-resource-type field, whose value differs from the
literal Unknown Resource, defaulting to that literal; and the canonical
record preserves every field of the raw payload except the keys resource
and resourceCategory, which are overwritten with the derived name and
category. -/
theorem c8_normalization_amended (a : JObj) (k : String) :
    (resolveNameCat a).1 = specResolvedName a
    ∧ alookup (processAlert a) "resource" = some (resolveNameCat a).1
    ∧ alookup (processAlert a) "resourceCategory" = some (resolveNameCat a).2
    ∧ (k ≠ "resource" → k ≠ "resourceCategory" →
        alookup (processAlert a) k = alookup a k) :=
  ⟨resolve_name_spec a, processAlert_resource a, processAlert_resourceCategory a,
   fun h1 h2 => processAlert_preserves a k h1 h2⟩

/-- C8 amended claim applied at a concrete raw alert and the uri key,
which normalization preserves. -/
theorem c8_normalization_amended_witness :
    alookup (processAlert [("uri", JVal.str "u1")]) "uri" = some (JVal.str "u1") :=
  (c8_normalization_amended [("uri", JVal.str "u1")] "uri").2.2.2 (by decide) (by decide)

/-- C9: an alert payload with no alertState field is treated as Active:
with a configured routing key, send_to_pagerduty makes an outbound call
with event action trigger. -/
theorem c9_missing_state_defaults_active (a : JObj) (net : Option Nat) (k : String)
    (hs : alookup a "alertState" = none) (hk : k ≠ "") :
    send_to_pagerduty net a (some k) = PdOutcome.attempted EventAction.trigger net := by
  have hl : pyLower "Active" = "active" := by decide
  have h1 : ¬ (("active" : String) = "cleared") := by decide
  have h2 : ¬ (("active" : String) = "acknowledged") := by decide
  simp [send_to_pagerduty, agetD, hs, hk, hl, h1, h2]

/-- C9 applied at a concrete payload lacking alertState. -/
theorem c9_missing_state_defaults_active_witness :
    send_to_pagerduty (some 202) [("uri", JVal.str "u9")] (some "rk")
      = PdOutcome.attempted EventAction.trigger (some 202) :=
  c9_missing_state_defaults_active [("uri", JVal.str "u9")] (some 202) "rk"
    (by decide) (by decide)

/-- C10: every alert lacking both the uri and resourceId fields gets the
literal Unknown as identity via the shared identity expression, and once
an Unknown entry is in the cache, every entry path treats such an alert
as a duplicate: the poll loop and manual trigger skip it and the webhook
reports already processed, each leaving the cache unchanged and making
no delivery. -/
theorem c10_unknown_identity_collision (a : JObj) (c : Cache) (sendOk : Bool) (now : Int)
    (h1 : alookup a "uri" = none) (h2 : alookup a "resourceId" = none)
    (hc : cacheHas c (JVal.str "Unknown") = true) :
    alertId a = JVal.str "Unknown"
    ∧ pollStep sendOk now c a = (c, false, false)
    ∧ webhookStep sendOk now c a = (c, WebhookResult.alreadyProcessed)
    ∧ forcePollStep sendOk now c a = (c, false) := by
  have hid : alertId a = JVal.str "Unknown" := by simp [alertId, h1, h2]
  refine ⟨hid, ?_, ?_, ?_⟩ <;>
    simp [pollStep, webhookStep, forcePollStep, tryClaim, hid, hc]

/-- C10 applied at a concrete alert with neither identity field, against
a cache already holding the Unknown entry. -/
theorem c10_unknown_identity_collision_witness :
    alertId [("description", JVal.str "d")] = JVal.str "Unknown"
    ∧ webhookStep true 0 [(JVal.str "Unknown", 0)] [("description", JVal.str "d")]
      = ([(JVal.str "Unknown", 0)], WebhookResult.alreadyProcessed) := by
  have h := c10_unknown_identity_collision [("description", JVal.str "d")]
    [(JVal.str "Unknown", 0)] true 0 (by decide) (by decide) (by decide)
  exact ⟨h.1, h.2.2.1⟩

end OVBridge
